import Mathlib

/-!
Shallow embedding of the juncture-core-sdk TypeScript client library
(src/frontend/JunctureFrontend.ts, src/backend/JunctureBackend.ts and their
type declaration files).  JavaScript runtime values that the code inspects
are modelled explicitly: an absent (`undefined`) or `null` field is `none`,
and the `||`-defaulting idiom of the source is translated literally,
including JavaScript falsiness of `false`, `0` and the empty string.
`Date` construction is kept opaque (the code never inspects a parsed date),
and a thrown `Error` is identified with its message string.
-/

namespace Juncture

/-- JavaScript truthiness of an optional string field: `undefined`, `null`
and `""` are falsy. -/
def strTruthy (s : Option String) : Bool :=
  match s with
  | none => false
  | some s => s ≠ ""

/-- JavaScript `a || b` for two optional string values. -/
def jsSel (a b : Option String) : Option String :=
  if strTruthy a then a else b

/-- Rendering of an optional string inside a template literal:
`undefined` prints as `"undefined"`. -/
def jsInterp (s : Option String) : String :=
  match s with
  | none => "undefined"
  | some s => s

/-- JavaScript `x || d` where `x` is an optional boolean field
(`undefined` and `false` are falsy). -/
def jsOrBool (x : Option Bool) (d : Bool) : Bool :=
  match x with
  | none => d
  | some b => b || d

/-- JavaScript `x || d` where `x` is an optional number field
(`undefined` and `0` are falsy). -/
def jsOrInt (x : Option Int) (d : Int) : Int :=
  match x with
  | none => d
  | some n => if n = 0 then d else n

/-- JavaScript `x || d` where `x` is an optional array field
(`undefined` and `null` are falsy; an array, even empty, is truthy). -/
def jsOrList {α : Type} (x : Option (List α)) (d : List α) : List α :=
  match x with
  | none => d
  | some l => l

/-- JavaScript truthiness of an optional boolean field. -/
def jsTruthy (x : Option Bool) : Bool :=
  match x with
  | none => false
  | some b => b

/-- `!x` applied to a string-typed configuration field: missing or empty
is falsy, so the constructor validation rejects it. -/
def jsFalsyStr (x : Option String) : Bool :=
  match x with
  | none => true
  | some s => s = ""

/-- An opaque JavaScript `Date` value: the SDK only ever constructs dates
via `new Date(...)` and never inspects them, so parsing is uninterpreted. -/
structure JsDate where
  raw : Option String
deriving DecidableEq

/-- `new Date(x)` applied to an optional wire field. -/
def newDate (s : Option String) : JsDate := ⟨s⟩

/-- A JavaScript/JSON value, used for free-form request fields. -/
inductive JsVal where
  | undef
  | nullVal
  | bool (b : Bool)
  | num (n : Int)
  | str (s : String)
  | arr (elements : List JsVal)
  | obj (fields : List (String × JsVal))

/-- Serialize an optional string request field (`undefined` when absent). -/
def optStr (s : Option String) : JsVal :=
  match s with
  | none => .undef
  | some s => .str s

/-- Serialize an optional number request field. -/
def optNum (n : Option Int) : JsVal :=
  match n with
  | none => .undef
  | some n => .num n

/-- Serialize an optional free-form field map. -/
def optObj (o : Option (List (String × JsVal))) : JsVal :=
  match o with
  | none => .undef
  | some fields => .obj fields

-- ==================== Configuration types (types.ts) ====================

/-- `JunctureBackendConfig` from src/backend/types.ts.  The TypeScript type
declares both fields as required strings, but the constructor explicitly
guards against them being absent or empty, so they are modelled as
optional. -/
structure JunctureBackendConfig where
  junctureApiUrl : Option String
  junctureSecretKey : Option String
deriving DecidableEq

/-- `JunctureBackendOptions` from src/backend/types.ts. -/
structure JunctureBackendOptions where
  config : JunctureBackendConfig
deriving DecidableEq

/-- `JunctureFrontendConfig` from src/frontend/types.ts
(`juncturePublicKey` is optional in the source as well). -/
structure JunctureFrontendConfig where
  junctureApiUrl : Option String
  juncturePublicKey : Option String
deriving DecidableEq

/-- `JunctureFrontendOptions` from src/frontend/types.ts. -/
structure JunctureFrontendOptions where
  config : JunctureFrontendConfig
deriving DecidableEq

/-- `ProviderType` from types.ts: the only provider is `'jira'`. -/
inductive ProviderType where
  | jira
deriving DecidableEq

/-- The wire string for a provider value. -/
def ProviderType.toWire : ProviderType → String
  | .jira => "jira"

/-- `SupportedFramework` from src/frontend/types.ts. -/
inductive SupportedFramework where
  | nextjs
  | react
  | vue
  | angular
  | vanilla
deriving DecidableEq

-- ==================== HTTP transport model ====================

inductive HttpMethod where
  | get
  | post
  | put
  | delete
deriving DecidableEq

/-- The axios instance created by `axios.create`: a base URL plus default
headers attached to every request issued through it. -/
structure HttpClient where
  baseURL : Option String
  headers : List (String × Option String)
deriving DecidableEq

/-- One outbound HTTP request as issued by an SDK method: the method, the
client's base URL and default headers, the fixed path, query parameters
and an optional JSON body. -/
structure HttpRequest where
  method : HttpMethod
  baseURL : Option String
  headers : List (String × Option String)
  path : String
  params : List (String × JsVal)
  body : Option (List (String × JsVal))

/-- `JunctureError` from types.ts (the error payload the API returns),
extended with the `needs_reauthorization` field that `getAccessToken`
reads off the same payload. -/
structure JunctureErrorData where
  error : Option String := none
  details : Option String := none
  needs_reauthorization : Option Bool := none
deriving DecidableEq

/-- `error.response` of an axios error: HTTP status plus response data. -/
structure AxiosErrResponse where
  status : Nat
  data : JunctureErrorData
deriving DecidableEq

/-- A failure raised by the transport: either an axios error (with an
optional response and an optional message) or any other thrown value. -/
inductive CallFailure where
  | axiosError (response : Option AxiosErrResponse) (message : Option String)
  | otherError (message : Option String)
deriving DecidableEq

/-- `handleError` as defined identically in both JunctureBackend.ts and
JunctureFrontend.ts; the result is the message of the returned `Error`. -/
def handleError (e : CallFailure) (defaultMessage : String) : String :=
  match e with
  | .axiosError response message =>
      let errorData := response.map AxiosErrResponse.data
      let msg := jsSel (errorData.bind JunctureErrorData.error)
        (jsSel message (some defaultMessage))
      let details := errorData.bind JunctureErrorData.details
      if strTruthy details then jsInterp msg ++ ": " ++ jsInterp details
      else jsInterp msg
  | .otherError message => jsInterp (jsSel message (some defaultMessage))

/-- The shared try/catch shape of every SDK method: on a successful
transport outcome the response handler shapes the result, on failure the
error normalizer produces the single thrown error. -/
def runCall {δ ρ : Type} (onResponse : δ → ρ) (onError : CallFailure → String)
    (outcome : Except CallFailure δ) : Except String ρ :=
  match outcome with
  | .ok d => .ok (onResponse d)
  | .error e => .error (onError e)

-- ==================== Jira domain records (types.ts) ====================

/-- `JiraProject` from src/backend/types.ts. -/
structure JiraProject where
  id : String
  key : String
  name : String
  description : Option String := none
  avatarUrl : Option String := none
deriving DecidableEq

/-- `JiraTicket` from src/backend/types.ts. -/
structure JiraTicket where
  id : String
  key : String
  summary : String
  description : Option String := none
  status : String
  priority : Option String := none
  assignee : Option String := none
  reporter : Option String := none
  createdAt : JsDate
  updatedAt : JsDate
deriving DecidableEq

/-- A comment entry of `DetailedJiraIssue` from src/backend/types.ts. -/
structure JiraComment where
  id : String
  author : String
  body : String
  created : JsDate
deriving DecidableEq

/-- An attachment entry of `DetailedJiraIssue` from src/backend/types.ts. -/
structure JiraAttachment where
  id : String
  filename : String
  url : String
  size : Int
deriving DecidableEq

/-- `DetailedJiraIssue` from src/backend/types.ts (extends `JiraTicket`). -/
structure DetailedJiraIssue extends JiraTicket where
  fields : List (String × JsVal)
  comments : Option (List JiraComment) := none
  attachments : Option (List JiraAttachment) := none

/-- `JiraSprint` from src/backend/types.ts. -/
structure JiraSprint where
  id : String
  name : String
  state : String
  startDate : Option JsDate := none
  endDate : Option JsDate := none
  goal : Option String := none
deriving DecidableEq

/-- The `location` sub-record of `JiraBoard` from src/backend/types.ts. -/
structure JiraBoardLocation where
  projectId : String
  projectName : String
deriving DecidableEq

/-- `JiraBoard` from src/backend/types.ts. -/
structure JiraBoard where
  id : String
  name : String
  type : String
  location : Option JiraBoardLocation := none
deriving DecidableEq

-- ============ Backend request/response types (types.ts) ============

/-- `CheckConnectionValidityRequest`. -/
structure CheckConnectionValidityRequest where
  externalId : String
  provider : ProviderType
deriving DecidableEq

/-- `CheckConnectionValidityResponse`.  The TypeScript type declares
`exists`/`isInvalid` as booleans, but the code copies the wire fields
through unchecked, so they are modelled as the optional values the wire
may actually carry. -/
structure CheckConnectionValidityResponse where
  connExists : Option Bool
  isInvalid : Option Bool
  expiresAt : Option JsDate
deriving DecidableEq

/-- `GetConnectionCredentialsRequest`. -/
structure GetConnectionCredentialsRequest where
  externalId : String
  provider : ProviderType
deriving DecidableEq

/-- `GetConnectionCredentialsResponse`. -/
structure GetConnectionCredentialsResponse where
  refreshToken : Option String
  expiresAt : JsDate
  isInvalid : Option Bool
deriving DecidableEq

/-- `GetAccessTokenRequest`. -/
structure GetAccessTokenRequest where
  externalId : String
  provider : ProviderType
deriving DecidableEq

/-- `GetAccessTokenResponse`. -/
structure GetAccessTokenResponse where
  accessToken : Option String
  expiresAt : JsDate
deriving DecidableEq

/-- `GetJiraProjectsResponse`. -/
structure GetJiraProjectsResponse where
  projects : List JiraProject
deriving DecidableEq

/-- `SelectJiraProjectRequest`. -/
structure SelectJiraProjectRequest where
  projectId : String
deriving DecidableEq

/-- `SelectJiraProjectResponse`. -/
structure SelectJiraProjectResponse where
  success : Bool
deriving DecidableEq

/-- `GetSelectedJiraProjectIdResponse`. -/
structure GetSelectedJiraProjectIdResponse where
  projectId : Option String
deriving DecidableEq

/-- `GetJiraTicketsRequest`. -/
structure GetJiraTicketsRequest where
  maxResults : Option Int := none
  startAt : Option Int := none
deriving DecidableEq

/-- `GetJiraTicketsResponse`. -/
structure GetJiraTicketsResponse where
  tickets : List JiraTicket
  total : Int
  startAt : Int
  maxResults : Int
deriving DecidableEq

/-- `GetJiraTicketsForSprintRequest`. -/
structure GetJiraTicketsForSprintRequest where
  sprintId : String
  maxResults : Option Int := none
  startAt : Option Int := none
deriving DecidableEq

/-- `GetJiraTicketsForSprintResponse`. -/
structure GetJiraTicketsForSprintResponse where
  tickets : List JiraTicket
  total : Int
  startAt : Int
  maxResults : Int
deriving DecidableEq

/-- `GetJiraIssueRequest`. -/
structure GetJiraIssueRequest where
  issueKey : String
deriving DecidableEq

/-- `GetJiraIssueResponse` (the wire `issue` field is copied through and
may be absent at runtime). -/
structure GetJiraIssueResponse where
  issue : Option DetailedJiraIssue

/-- `CreateJiraTicketRequest`. -/
structure CreateJiraTicketRequest where
  projectKey : String
  issueType : String
  summary : String
  description : Option String := none
  priority : Option String := none
  assignee : Option String := none
  fields : Option (List (String × JsVal)) := none

/-- `CreateJiraTicketResponse`. -/
structure CreateJiraTicketResponse where
  success : Bool
  ticketKey : Option String
  ticketId : Option String
deriving DecidableEq

/-- `EditJiraIssueRequest`. -/
structure EditJiraIssueRequest where
  issueKey : String
  fields : List (String × JsVal)

/-- `EditJiraIssueResponse`. -/
structure EditJiraIssueResponse where
  success : Bool
deriving DecidableEq

/-- `DeleteJiraIssueRequest`. -/
structure DeleteJiraIssueRequest where
  issueKey : String
deriving DecidableEq

/-- `DeleteJiraIssueResponse`. -/
structure DeleteJiraIssueResponse where
  success : Bool
deriving DecidableEq

/-- `GetSprintsRequest`. -/
structure GetSprintsRequest where
  maxResults : Option Int := none
  startAt : Option Int := none
deriving DecidableEq

/-- `GetSprintsResponse`. -/
structure GetSprintsResponse where
  sprints : List JiraSprint
  total : Int
  startAt : Int
  maxResults : Int
deriving DecidableEq

/-- `GetActiveSprintsResponse`. -/
structure GetActiveSprintsResponse where
  sprints : List JiraSprint
deriving DecidableEq

/-- `GetJiraBoardRequest`. -/
structure GetJiraBoardRequest where
  maxResults : Option Int := none
  startAt : Option Int := none
deriving DecidableEq

/-- `GetJiraBoardResponse`. -/
structure GetJiraBoardResponse where
  boards : List JiraBoard
  total : Int
  startAt : Int
  maxResults : Int
deriving DecidableEq

-- ============ Wire payloads (`response.data`), fields optional ============

/-- Payload of GET /check-connection-validity.  The wire field named
`exists` is called `connExists` here because `exists` is reserved in
Lean. -/
structure CheckConnectionValidityData where
  connExists : Option Bool := none
  is_invalid : Option Bool := none
  expires_at : Option String := none
deriving DecidableEq

/-- Payload of GET /get-connection-credentials. -/
structure GetConnectionCredentialsData where
  refresh_token : Option String := none
  expires_at : Option String := none
  is_invalid : Option Bool := none
deriving DecidableEq

/-- Payload of GET /get-access-token (success case). -/
structure GetAccessTokenData where
  access_token : Option String := none
  expires_at : Option String := none
deriving DecidableEq

/-- Payload of GET /get-all-projects. -/
structure GetJiraProjectsData where
  projects : Option (List JiraProject) := none
deriving DecidableEq

/-- Payload of POST /select-project. -/
structure SelectJiraProjectData where
  success : Option Bool := none
deriving DecidableEq

/-- Payload of GET /get-selected-project-id. -/
structure GetSelectedJiraProjectIdData where
  project_id : Option String := none
deriving DecidableEq

/-- Payload of GET /get-tickets-for-project and /get-tickets-for-sprint;
the counters travel in camelCase on the wire, exactly as the code reads
them. -/
structure GetJiraTicketsData where
  tickets : Option (List JiraTicket) := none
  total : Option Int := none
  startAt : Option Int := none
  maxResults : Option Int := none
deriving DecidableEq

/-- Payload of GET /get-issue-details. -/
structure GetJiraIssueData where
  issue : Option DetailedJiraIssue := none

/-- Payload of POST /create-ticket. -/
structure CreateJiraTicketData where
  success : Option Bool := none
  ticket_key : Option String := none
  ticket_id : Option String := none
deriving DecidableEq

/-- Payload of PUT /edit-issue. -/
structure EditJiraIssueData where
  success : Option Bool := none
deriving DecidableEq

/-- Payload of DELETE /delete-issue. -/
structure DeleteJiraIssueData where
  success : Option Bool := none
deriving DecidableEq

/-- Payload of GET /get-all-sprints-for-project. -/
structure GetSprintsData where
  sprints : Option (List JiraSprint) := none
  total : Option Int := none
  startAt : Option Int := none
  maxResults : Option Int := none
deriving DecidableEq

/-- Payload of GET /get-active-sprints-for-project. -/
structure GetActiveSprintsData where
  sprints : Option (List JiraSprint) := none
deriving DecidableEq

/-- Payload of GET /get-boards-for-project. -/
structure GetJiraBoardsData where
  boards : Option (List JiraBoard) := none
  total : Option Int := none
  startAt : Option Int := none
  maxResults : Option Int := none
deriving DecidableEq

/-- Payload of POST /initiate-oauth-flow, returned verbatim by
`getOAuthAuthorizationUrl` (`return response.data;`).  Both the snake_case
wire spelling and the camelCase spelling the TypeScript type declares are
modelled, since the payload is passed through without renaming. -/
structure InitiateOAuthFlowData where
  authorization_uri : Option String := none
  authorizationUri : Option String := none
deriving DecidableEq

-- ==================== The two client classes ====================

/-- The `JunctureBackend` instance state: configuration plus the axios
instance created in the constructor. -/
structure JunctureBackend where
  config : JunctureBackendConfig
  httpClient : HttpClient
deriving DecidableEq

/-- The `JunctureBackend` constructor (JunctureBackend.ts, lines 107-149):
validates the two required fields, then creates the HTTP client with the
`Content-Type` and `X-Juncture-Secret-Key` default headers.  A thrown
`Error` is modelled as `Except.error` of its message. -/
def JunctureBackend.create (options : JunctureBackendOptions) :
    Except String JunctureBackend :=
  let config := options.config
  if jsFalsyStr config.junctureApiUrl then
    .error "junctureApiUrl is required"
  else if jsFalsyStr config.junctureSecretKey then
    .error "junctureSecretKey is required"
  else
    .ok { config := config,
          httpClient :=
            { baseURL := config.junctureApiUrl,
              headers := [("Content-Type", some "application/json"),
                          ("X-Juncture-Secret-Key", config.junctureSecretKey)] } }

/-- `getConfig()` of `JunctureBackend`: `return { ...this.config };` —
as a pure value, the copied configuration (the aliasing behaviour of the
spread copy is modelled separately on an object heap). -/
def JunctureBackend.getConfig (b : JunctureBackend) : JunctureBackendConfig :=
  b.config

/-- The `JunctureFrontend` instance state. -/
structure JunctureFrontend where
  config : JunctureFrontendConfig
  httpClient : HttpClient
deriving DecidableEq

/-- The `JunctureFrontend` constructor (JunctureFrontend.ts, lines 48-68):
validates the base URL, creates the HTTP client with the `Content-Type`
header, and adds `X-Juncture-Public-Key` only when a public key is
provided (truthy). -/
def JunctureFrontend.create (options : JunctureFrontendOptions) :
    Except String JunctureFrontend :=
  let config := options.config
  if jsFalsyStr config.junctureApiUrl then
    .error "junctureApiUrl is required"
  else
    .ok { config := config,
          httpClient :=
            { baseURL := config.junctureApiUrl,
              headers := [("Content-Type", some "application/json")] ++
                (if strTruthy config.juncturePublicKey then
                  [("X-Juncture-Public-Key", config.juncturePublicKey)]
                 else []) } }

/-- `getConfig()` of `JunctureFrontend`: `return { ...this.config };`. -/
def JunctureFrontend.getConfig (f : JunctureFrontend) : JunctureFrontendConfig :=
  f.config

-- ==================== Request construction ====================

/-- `this.httpClient.get(path, { params })`. -/
def HttpClient.getReq (c : HttpClient) (path : String)
    (params : List (String × JsVal)) : HttpRequest :=
  { method := .get, baseURL := c.baseURL, headers := c.headers,
    path := path, params := params, body := none }

/-- `this.httpClient.post(path, body)`. -/
def HttpClient.postReq (c : HttpClient) (path : String)
    (body : List (String × JsVal)) : HttpRequest :=
  { method := .post, baseURL := c.baseURL, headers := c.headers,
    path := path, params := [], body := some body }

/-- `this.httpClient.put(path, body)`. -/
def HttpClient.putReq (c : HttpClient) (path : String)
    (body : List (String × JsVal)) : HttpRequest :=
  { method := .put, baseURL := c.baseURL, headers := c.headers,
    path := path, params := [], body := some body }

/-- `this.httpClient.delete(path, { params })`. -/
def HttpClient.deleteReq (c : HttpClient) (path : String)
    (params : List (String × JsVal)) : HttpRequest :=
  { method := .delete, baseURL := c.baseURL, headers := c.headers,
    path := path, params := params, body := none }

-- ========== Backend operations (JunctureBackend.ts, 170-444) ==========

/-- Outbound request of `checkConnectionValidity`. -/
def JunctureBackend.checkConnectionValidity_request (b : JunctureBackend)
    (request : CheckConnectionValidityRequest) : HttpRequest :=
  b.httpClient.getReq "/check-connection-validity"
    [("external_id", .str request.externalId),
     ("provider", .str request.provider.toWire)]

/-- Response shaping of `checkConnectionValidity`. -/
def JunctureBackend.checkConnectionValidity_onResponse
    (d : CheckConnectionValidityData) : CheckConnectionValidityResponse :=
  { connExists := d.connExists,
    isInvalid := d.is_invalid,
    expiresAt := if strTruthy d.expires_at then some (newDate d.expires_at)
      else none }

/-- The full `checkConnectionValidity` call. -/
def JunctureBackend.checkConnectionValidity_run (b : JunctureBackend)
    (request : CheckConnectionValidityRequest)
    (outcome : Except CallFailure CheckConnectionValidityData) :
    HttpRequest × Except String CheckConnectionValidityResponse :=
  (b.checkConnectionValidity_request request,
   runCall JunctureBackend.checkConnectionValidity_onResponse
     (handleError · "Failed to check connection validity") outcome)

/-- Outbound request of `getConnectionCredentials`. -/
def JunctureBackend.getConnectionCredentials_request (b : JunctureBackend)
    (request : GetConnectionCredentialsRequest) : HttpRequest :=
  b.httpClient.getReq "/get-connection-credentials"
    [("external_id", .str request.externalId),
     ("provider", .str request.provider.toWire)]

/-- Response shaping of `getConnectionCredentials`. -/
def JunctureBackend.getConnectionCredentials_onResponse
    (d : GetConnectionCredentialsData) : GetConnectionCredentialsResponse :=
  { refreshToken := d.refresh_token,
    expiresAt := newDate d.expires_at,
    isInvalid := d.is_invalid }

/-- The full `getConnectionCredentials` call. -/
def JunctureBackend.getConnectionCredentials_run (b : JunctureBackend)
    (request : GetConnectionCredentialsRequest)
    (outcome : Except CallFailure GetConnectionCredentialsData) :
    HttpRequest × Except String GetConnectionCredentialsResponse :=
  (b.getConnectionCredentials_request request,
   runCall JunctureBackend.getConnectionCredentials_onResponse
     (handleError · "Failed to get connection credentials") outcome)

/-- Outbound request of `getAccessToken`. -/
def JunctureBackend.getAccessToken_request (b : JunctureBackend)
    (request : GetAccessTokenRequest) : HttpRequest :=
  b.httpClient.getReq "/get-access-token"
    [("external_id", .str request.externalId),
     ("provider", .str request.provider.toWire)]

/-- Response shaping of `getAccessToken`. -/
def JunctureBackend.getAccessToken_onResponse (d : GetAccessTokenData) :
    GetAccessTokenResponse :=
  { accessToken := d.access_token,
    expiresAt := newDate d.expires_at }

/-- The catch block of `getAccessToken` (JunctureBackend.ts, 232-240):
a 403 axios error whose payload flags `needs_reauthorization` raises the
distinguished reauthorization error; every other failure is normalized. -/
def JunctureBackend.getAccessToken_onError (e : CallFailure) : String :=
  match e with
  | .axiosError (some resp) _ =>
      if resp.status = 403 then
        if jsTruthy resp.data.needs_reauthorization then
          "Reauthorization required: " ++ jsInterp resp.data.error
        else handleError e "Failed to get access token"
      else handleError e "Failed to get access token"
  | _ => handleError e "Failed to get access token"

/-- The full `getAccessToken` call. -/
def JunctureBackend.getAccessToken_run (b : JunctureBackend)
    (request : GetAccessTokenRequest)
    (outcome : Except CallFailure GetAccessTokenData) :
    HttpRequest × Except String GetAccessTokenResponse :=
  (b.getAccessToken_request request,
   runCall JunctureBackend.getAccessToken_onResponse
     JunctureBackend.getAccessToken_onError outcome)

/-- Outbound request of `getJiraProjects`. -/
def JunctureBackend.getJiraProjects_request (b : JunctureBackend) :
    HttpRequest :=
  b.httpClient.getReq "/get-all-projects" []

/-- Response shaping of `getJiraProjects`. -/
def JunctureBackend.getJiraProjects_onResponse (d : GetJiraProjectsData) :
    GetJiraProjectsResponse :=
  { projects := jsOrList d.projects [] }

/-- The full `getJiraProjects` call. -/
def JunctureBackend.getJiraProjects_run (b : JunctureBackend)
    (outcome : Except CallFailure GetJiraProjectsData) :
    HttpRequest × Except String GetJiraProjectsResponse :=
  (b.getJiraProjects_request,
   runCall JunctureBackend.getJiraProjects_onResponse
     (handleError · "Failed to get Jira projects") outcome)

/-- Outbound request of `selectJiraProject`. -/
def JunctureBackend.selectJiraProject_request (b : JunctureBackend)
    (request : SelectJiraProjectRequest) : HttpRequest :=
  b.httpClient.postReq "/select-project"
    [("project_id", .str request.projectId)]

/-- Response shaping of `selectJiraProject`:
`success: response.data.success || true`. -/
def JunctureBackend.selectJiraProject_onResponse (d : SelectJiraProjectData) :
    SelectJiraProjectResponse :=
  { success := jsOrBool d.success true }

/-- The full `selectJiraProject` call. -/
def JunctureBackend.selectJiraProject_run (b : JunctureBackend)
    (request : SelectJiraProjectRequest)
    (outcome : Except CallFailure SelectJiraProjectData) :
    HttpRequest × Except String SelectJiraProjectResponse :=
  (b.selectJiraProject_request request,
   runCall JunctureBackend.selectJiraProject_onResponse
     (handleError · "Failed to select Jira project") outcome)

/-- Outbound request of `getSelectedJiraProjectId`. -/
def JunctureBackend.getSelectedJiraProjectId_request (b : JunctureBackend) :
    HttpRequest :=
  b.httpClient.getReq "/get-selected-project-id" []

/-- Response shaping of `getSelectedJiraProjectId`. -/
def JunctureBackend.getSelectedJiraProjectId_onResponse
    (d : GetSelectedJiraProjectIdData) : GetSelectedJiraProjectIdResponse :=
  { projectId := d.project_id }

/-- The full `getSelectedJiraProjectId` call. -/
def JunctureBackend.getSelectedJiraProjectId_run (b : JunctureBackend)
    (outcome : Except CallFailure GetSelectedJiraProjectIdData) :
    HttpRequest × Except String GetSelectedJiraProjectIdResponse :=
  (b.getSelectedJiraProjectId_request,
   runCall JunctureBackend.getSelectedJiraProjectId_onResponse
     (handleError · "Failed to get selected Jira project ID") outcome)

/-- Outbound request of `getJiraTickets` (the request object itself is
optional in the source: `request?: GetJiraTicketsRequest`). -/
def JunctureBackend.getJiraTickets_request (b : JunctureBackend)
    (request : Option GetJiraTicketsRequest) : HttpRequest :=
  b.httpClient.getReq "/get-tickets-for-project"
    [("maxResults", optNum (request.bind GetJiraTicketsRequest.maxResults)),
     ("startAt", optNum (request.bind GetJiraTicketsRequest.startAt))]

/-- Response shaping of `getJiraTickets`. -/
def JunctureBackend.getJiraTickets_onResponse (d : GetJiraTicketsData) :
    GetJiraTicketsResponse :=
  { tickets := jsOrList d.tickets [],
    total := jsOrInt d.total 0,
    startAt := jsOrInt d.startAt 0,
    maxResults := jsOrInt d.maxResults 50 }

/-- The full `getJiraTickets` call. -/
def JunctureBackend.getJiraTickets_run (b : JunctureBackend)
    (request : Option GetJiraTicketsRequest)
    (outcome : Except CallFailure GetJiraTicketsData) :
    HttpRequest × Except String GetJiraTicketsResponse :=
  (b.getJiraTickets_request request,
   runCall JunctureBackend.getJiraTickets_onResponse
     (handleError · "Failed to get Jira tickets") outcome)

/-- Outbound request of `getJiraTicketsForSprint`. -/
def JunctureBackend.getJiraTicketsForSprint_request (b : JunctureBackend)
    (request : GetJiraTicketsForSprintRequest) : HttpRequest :=
  b.httpClient.getReq "/get-tickets-for-sprint"
    [("sprint_id", .str request.sprintId),
     ("maxResults", optNum request.maxResults),
     ("startAt", optNum request.startAt)]

/-- Response shaping of `getJiraTicketsForSprint`. -/
def JunctureBackend.getJiraTicketsForSprint_onResponse
    (d : GetJiraTicketsData) : GetJiraTicketsForSprintResponse :=
  { tickets := jsOrList d.tickets [],
    total := jsOrInt d.total 0,
    startAt := jsOrInt d.startAt 0,
    maxResults := jsOrInt d.maxResults 50 }

/-- The full `getJiraTicketsForSprint` call. -/
def JunctureBackend.getJiraTicketsForSprint_run (b : JunctureBackend)
    (request : GetJiraTicketsForSprintRequest)
    (outcome : Except CallFailure GetJiraTicketsData) :
    HttpRequest × Except String GetJiraTicketsForSprintResponse :=
  (b.getJiraTicketsForSprint_request request,
   runCall JunctureBackend.getJiraTicketsForSprint_onResponse
     (handleError · "Failed to get Jira tickets for sprint") outcome)

/-- Outbound request of `getJiraIssue`. -/
def JunctureBackend.getJiraIssue_request (b : JunctureBackend)
    (request : GetJiraIssueRequest) : HttpRequest :=
  b.httpClient.getReq "/get-issue-details"
    [("issue_key", .str request.issueKey)]

/-- Response shaping of `getJiraIssue`. -/
def JunctureBackend.getJiraIssue_onResponse (d : GetJiraIssueData) :
    GetJiraIssueResponse :=
  { issue := d.issue }

/-- The full `getJiraIssue` call. -/
def JunctureBackend.getJiraIssue_run (b : JunctureBackend)
    (request : GetJiraIssueRequest)
    (outcome : Except CallFailure GetJiraIssueData) :
    HttpRequest × Except String GetJiraIssueResponse :=
  (b.getJiraIssue_request request,
   runCall JunctureBackend.getJiraIssue_onResponse
     (handleError · "Failed to get Jira issue") outcome)

/-- Outbound request of `createJiraTicket`. -/
def JunctureBackend.createJiraTicket_request (b : JunctureBackend)
    (request : CreateJiraTicketRequest) : HttpRequest :=
  b.httpClient.postReq "/create-ticket"
    [("project_key", .str request.projectKey),
     ("issue_type", .str request.issueType),
     ("summary", .str request.summary),
     ("description", optStr request.description),
     ("priority", optStr request.priority),
     ("assignee", optStr request.assignee),
     ("fields", optObj request.fields)]

/-- Response shaping of `createJiraTicket`:
`success: response.data.success || true` plus the created key and id. -/
def JunctureBackend.createJiraTicket_onResponse (d : CreateJiraTicketData) :
    CreateJiraTicketResponse :=
  { success := jsOrBool d.success true,
    ticketKey := d.ticket_key,
    ticketId := d.ticket_id }

/-- The full `createJiraTicket` call. -/
def JunctureBackend.createJiraTicket_run (b : JunctureBackend)
    (request : CreateJiraTicketRequest)
    (outcome : Except CallFailure CreateJiraTicketData) :
    HttpRequest × Except String CreateJiraTicketResponse :=
  (b.createJiraTicket_request request,
   runCall JunctureBackend.createJiraTicket_onResponse
     (handleError · "Failed to create Jira ticket") outcome)

/-- Outbound request of `editJiraIssue`. -/
def JunctureBackend.editJiraIssue_request (b : JunctureBackend)
    (request : EditJiraIssueRequest) : HttpRequest :=
  b.httpClient.putReq "/edit-issue"
    [("issue_key", .str request.issueKey),
     ("fields", .obj request.fields)]

/-- Response shaping of `editJiraIssue`. -/
def JunctureBackend.editJiraIssue_onResponse (d : EditJiraIssueData) :
    EditJiraIssueResponse :=
  { success := jsOrBool d.success true }

/-- The full `editJiraIssue` call. -/
def JunctureBackend.editJiraIssue_run (b : JunctureBackend)
    (request : EditJiraIssueRequest)
    (outcome : Except CallFailure EditJiraIssueData) :
    HttpRequest × Except String EditJiraIssueResponse :=
  (b.editJiraIssue_request request,
   runCall JunctureBackend.editJiraIssue_onResponse
     (handleError · "Failed to edit Jira issue") outcome)

/-- Outbound request of `deleteJiraIssue`. -/
def JunctureBackend.deleteJiraIssue_request (b : JunctureBackend)
    (request : DeleteJiraIssueRequest) : HttpRequest :=
  b.httpClient.deleteReq "/delete-issue"
    [("issue_key", .str request.issueKey)]

/-- Response shaping of `deleteJiraIssue`. -/
def JunctureBackend.deleteJiraIssue_onResponse (d : DeleteJiraIssueData) :
    DeleteJiraIssueResponse :=
  { success := jsOrBool d.success true }

/-- The full `deleteJiraIssue` call. -/
def JunctureBackend.deleteJiraIssue_run (b : JunctureBackend)
    (request : DeleteJiraIssueRequest)
    (outcome : Except CallFailure DeleteJiraIssueData) :
    HttpRequest × Except String DeleteJiraIssueResponse :=
  (b.deleteJiraIssue_request request,
   runCall JunctureBackend.deleteJiraIssue_onResponse
     (handleError · "Failed to delete Jira issue") outcome)

/-- Outbound request of `getJiraSprints`. -/
def JunctureBackend.getJiraSprints_request (b : JunctureBackend)
    (request : Option GetSprintsRequest) : HttpRequest :=
  b.httpClient.getReq "/get-all-sprints-for-project"
    [("maxResults", optNum (request.bind GetSprintsRequest.maxResults)),
     ("startAt", optNum (request.bind GetSprintsRequest.startAt))]

/-- Response shaping of `getJiraSprints`. -/
def JunctureBackend.getJiraSprints_onResponse (d : GetSprintsData) :
    GetSprintsResponse :=
  { sprints := jsOrList d.sprints [],
    total := jsOrInt d.total 0,
    startAt := jsOrInt d.startAt 0,
    maxResults := jsOrInt d.maxResults 50 }

/-- The full `getJiraSprints` call. -/
def JunctureBackend.getJiraSprints_run (b : JunctureBackend)
    (request : Option GetSprintsRequest)
    (outcome : Except CallFailure GetSprintsData) :
    HttpRequest × Except String GetSprintsResponse :=
  (b.getJiraSprints_request request,
   runCall JunctureBackend.getJiraSprints_onResponse
     (handleError · "Failed to get Jira sprints") outcome)

/-- Outbound request of `getActiveJiraSprints`. -/
def JunctureBackend.getActiveJiraSprints_request (b : JunctureBackend) :
    HttpRequest :=
  b.httpClient.getReq "/get-active-sprints-for-project" []

/-- Response shaping of `getActiveJiraSprints`. -/
def JunctureBackend.getActiveJiraSprints_onResponse (d : GetActiveSprintsData) :
    GetActiveSprintsResponse :=
  { sprints := jsOrList d.sprints [] }

/-- The full `getActiveJiraSprints` call. -/
def JunctureBackend.getActiveJiraSprints_run (b : JunctureBackend)
    (outcome : Except CallFailure GetActiveSprintsData) :
    HttpRequest × Except String GetActiveSprintsResponse :=
  (b.getActiveJiraSprints_request,
   runCall JunctureBackend.getActiveJiraSprints_onResponse
     (handleError · "Failed to get active Jira sprints") outcome)

/-- Outbound request of `getJiraBoards`. -/
def JunctureBackend.getJiraBoards_request (b : JunctureBackend)
    (request : Option GetJiraBoardRequest) : HttpRequest :=
  b.httpClient.getReq "/get-boards-for-project"
    [("maxResults", optNum (request.bind GetJiraBoardRequest.maxResults)),
     ("startAt", optNum (request.bind GetJiraBoardRequest.startAt))]

/-- Response shaping of `getJiraBoards`. -/
def JunctureBackend.getJiraBoards_onResponse (d : GetJiraBoardsData) :
    GetJiraBoardResponse :=
  { boards := jsOrList d.boards [],
    total := jsOrInt d.total 0,
    startAt := jsOrInt d.startAt 0,
    maxResults := jsOrInt d.maxResults 50 }

/-- The full `getJiraBoards` call. -/
def JunctureBackend.getJiraBoards_run (b : JunctureBackend)
    (request : Option GetJiraBoardRequest)
    (outcome : Except CallFailure GetJiraBoardsData) :
    HttpRequest × Except String GetJiraBoardResponse :=
  (b.getJiraBoards_request request,
   runCall JunctureBackend.getJiraBoards_onResponse
     (handleError · "Failed to get Jira boards") outcome)

-- ========== Frontend operations (JunctureFrontend.ts, 101-211) ==========

/-- `InitiateOAuthFlowRequest` from src/frontend/types.ts. -/
structure InitiateOAuthFlowRequest where
  provider : ProviderType
  externalId : String
deriving DecidableEq

/-- Outbound request of `getOAuthAuthorizationUrl`. -/
def JunctureFrontend.getOAuthAuthorizationUrl_request (f : JunctureFrontend)
    (request : InitiateOAuthFlowRequest) : HttpRequest :=
  f.httpClient.postReq "/initiate-oauth-flow"
    [("provider", .str request.provider.toWire),
     ("external_id", .str request.externalId)]

/-- Response shaping of `getOAuthAuthorizationUrl`: the source returns
`response.data` verbatim, with no field renaming. -/
def JunctureFrontend.getOAuthAuthorizationUrl_onResponse
    (d : InitiateOAuthFlowData) : InitiateOAuthFlowData :=
  d

/-- The full `getOAuthAuthorizationUrl` call. -/
def JunctureFrontend.getOAuthAuthorizationUrl_run (f : JunctureFrontend)
    (request : InitiateOAuthFlowRequest)
    (outcome : Except CallFailure InitiateOAuthFlowData) :
    HttpRequest × Except String InitiateOAuthFlowData :=
  (f.getOAuthAuthorizationUrl_request request,
   runCall JunctureFrontend.getOAuthAuthorizationUrl_onResponse
     (handleError · "Failed to get OAuth authorization URL") outcome)

/-- The full `redirectToOAuth` call.  `windowAvailable` models
`typeof window !== 'undefined'`; on success the result carries the value
assigned to `window.location.href` (which is `authResponse.authorizationUri`
and may be `undefined` at runtime).  An error thrown inside the try block
— either the one rethrown by `getOAuthAuthorizationUrl` or the missing
`window` error — is caught and passed through `handleError` as a plain
(non-axios) error. -/
def JunctureFrontend.redirectToOAuth_run (f : JunctureFrontend)
    (request : InitiateOAuthFlowRequest) (framework : SupportedFramework)
    (windowAvailable : Bool)
    (outcome : Except CallFailure InitiateOAuthFlowData) :
    HttpRequest × Except String (Option String) :=
  let call := f.getOAuthAuthorizationUrl_run request outcome
  let inner : Except String (Option String) :=
    match call.2 with
    | .error msg => .error msg
    | .ok authResponse =>
      match framework with
      | .nextjs =>
          if windowAvailable then .ok authResponse.authorizationUri
          else .error "window is not available in server-side environment"
      | .react =>
          if windowAvailable then .ok authResponse.authorizationUri
          else .error "window is not available in server-side environment"
      | .vue | .angular | .vanilla =>
          if windowAvailable then .ok authResponse.authorizationUri
          else .error "window is not available in server-side environment"
  (call.1,
   match inner with
   | .ok href => .ok href
   | .error m =>
       .error (handleError (.otherError (some m)) "Failed to redirect to OAuth"))

/-- `reauthorizeConnection` (JunctureFrontend.ts, 185-190): its body is
exactly `await this.redirectToOAuth({ provider, externalId }, framework)`. -/
def JunctureFrontend.reauthorizeConnection_run (f : JunctureFrontend)
    (provider : ProviderType) (externalId : String)
    (framework : SupportedFramework) (windowAvailable : Bool)
    (outcome : Except CallFailure InitiateOAuthFlowData) :
    HttpRequest × Except String (Option String) :=
  f.redirectToOAuth_run { provider := provider, externalId := externalId }
    framework windowAvailable outcome

/-- `completeIntegration` (JunctureFrontend.ts, 206-211): its body is
exactly `await this.redirectToOAuth({ provider, externalId }, framework)`. -/
def JunctureFrontend.completeIntegration_run (f : JunctureFrontend)
    (provider : ProviderType) (externalId : String)
    (framework : SupportedFramework) (windowAvailable : Bool)
    (outcome : Except CallFailure InitiateOAuthFlowData) :
    HttpRequest × Except String (Option String) :=
  f.redirectToOAuth_run { provider := provider, externalId := externalId }
    framework windowAvailable outcome

-- ========== Object-heap model of the `{ ...this.config }` copy ==========

/-- Lookup of an object by reference in an association list. -/
def findVal {α : Type} : List (Nat × α) → Nat → Option α
  | [], _ => none
  | p :: rest, r => if p.1 = r then some p.2 else findVal rest r

/-- A tiny JavaScript object heap: allocated objects keyed by reference,
with `next` the next fresh reference. -/
structure ObjHeap (α : Type) where
  objs : List (Nat × α)
  next : Nat

/-- Dereference. -/
def ObjHeap.read {α : Type} (h : ObjHeap α) (r : Nat) : Option α :=
  findVal h.objs r

/-- Allocate a fresh object holding `v`; returns the new heap and the new
reference. -/
def ObjHeap.alloc {α : Type} (h : ObjHeap α) (v : α) : ObjHeap α × Nat :=
  ({ objs := (h.next, v) :: h.objs, next := h.next + 1 }, h.next)

/-- Overwrite the object at `r` (a caller mutating an object it holds). -/
def ObjHeap.write {α : Type} (h : ObjHeap α) (r : Nat) (v : α) : ObjHeap α :=
  { objs := h.objs.map (fun p => if p.1 = r then (r, v) else p),
    next := h.next }

/-- Heap well-formedness: every allocated reference is below `next`. -/
def ObjHeap.WF {α : Type} (h : ObjHeap α) : Prop :=
  ∀ p ∈ h.objs, p.1 < h.next

/-- `getConfig(): return { ...this.config };` at the object level, as both
client classes implement it: dereference the configuration object the
client holds and allocate a fresh copy carrying the same field values.
The `none` branch is unreachable for a constructed client, whose
configuration reference is always allocated. -/
def getConfigCopy {α : Type} (h : ObjHeap α) (configRef : Nat) :
    ObjHeap α × Nat :=
  match h.read configRef with
  | some v => h.alloc v
  | none => (h, configRef)

-- ==================== Helper lemmas ====================

theorem findVal_lt {α : Type} {l : List (Nat × α)} {n r : Nat} {v : α}
    (hwf : ∀ p ∈ l, p.1 < n) (hr : findVal l r = some v) : r < n := by
  induction l with
  | nil => simp [findVal] at hr
  | cons p rest ih =>
    rw [findVal] at hr
    split at hr
    · next hp => exact hp ▸ hwf p (List.mem_cons_self p rest)
    · next hp => exact ih (fun q hq => hwf q (List.mem_cons_of_mem p hq)) hr

theorem findVal_cons {α : Type} (p : Nat × α) (l : List (Nat × α)) (r : Nat) :
    findVal (p :: l) r = if p.1 = r then some p.2 else findVal l r :=
  rfl

theorem findVal_write_ne {α : Type} {l : List (Nat × α)} {r s : Nat} {v : α}
    (hne : r ≠ s) :
    findVal (l.map (fun p => if p.1 = s then (s, v) else p)) r = findVal l r := by
  induction l with
  | nil => rfl
  | cons p rest ih =>
    simp only [List.map_cons]
    by_cases hp : p.1 = s
    · rw [if_pos hp, findVal_cons, findVal_cons]
      rw [if_neg (fun hc => hne hc.symm)]
      rw [if_neg (fun hc => hne ((hp.symm.trans hc)).symm)]
      exact ih
    · rw [if_neg hp, findVal_cons, findVal_cons]
      by_cases hr2 : p.1 = r
      · rw [if_pos hr2, if_pos hr2]
      · rw [if_neg hr2, if_neg hr2]
        exact ih

theorem ObjHeap.read_write_ne {α : Type} (h : ObjHeap α) {r s : Nat} (v : α)
    (hne : r ≠ s) : (h.write s v).read r = h.read r :=
  findVal_write_ne hne

theorem ObjHeap.read_alloc_old {α : Type} (h : ObjHeap α) (v : α) {r : Nat}
    (hne : r ≠ h.next) : (h.alloc v).1.read r = h.read r := by
  show findVal ((h.next, v) :: h.objs) r = findVal h.objs r
  rw [findVal, if_neg (by exact hne.symm)]

theorem getConfigCopy_some {α : Type} {h : ObjHeap α} {r : Nat} {v : α}
    (hr : h.read r = some v) : getConfigCopy h r = h.alloc v := by
  unfold getConfigCopy
  rw [hr]

theorem getConfigCopy_snd {α : Type} {h : ObjHeap α} {r : Nat} {v : α}
    (hr : h.read r = some v) : (getConfigCopy h r).2 = h.next := by
  rw [getConfigCopy_some hr]
  rfl

theorem getConfigCopy_fst {α : Type} {h : ObjHeap α} {r : Nat} {v : α}
    (hr : h.read r = some v) : (getConfigCopy h r).1 = (h.alloc v).1 := by
  rw [getConfigCopy_some hr]

theorem getConfigCopy_read_fresh {α : Type} {h : ObjHeap α} {r : Nat} {v : α}
    (hr : h.read r = some v) :
    (getConfigCopy h r).1.read (getConfigCopy h r).2 = some v := by
  rw [getConfigCopy_some hr]
  show findVal ((h.next, v) :: h.objs) h.next = some v
  rw [findVal_cons, if_pos rfl]

/-- The generic defensive-copy property of `{ ...this.config }`: the copy
reads back the stored configuration, lives at a fresh reference, and
overwriting it neither changes the client's own configuration object nor
what a subsequent copy returns. -/
theorem spreadCopy_defensive {α : Type} (h : ObjHeap α) (r : Nat) (v : α)
    (hwf : h.WF) (hr : h.read r = some v) :
    (getConfigCopy h r).1.read (getConfigCopy h r).2 = some v ∧
    (getConfigCopy h r).2 ≠ r ∧
    ∀ w : α,
      ((getConfigCopy h r).1.write (getConfigCopy h r).2 w).read r = some v ∧
      (getConfigCopy ((getConfigCopy h r).1.write (getConfigCopy h r).2 w) r).1.read
        (getConfigCopy ((getConfigCopy h r).1.write (getConfigCopy h r).2 w) r).2 =
        some v := by
  have hlt : r < h.next := findVal_lt hwf hr
  have hsnd : (getConfigCopy h r).2 = h.next := getConfigCopy_snd hr
  have hne : (getConfigCopy h r).2 ≠ r := by
    rw [hsnd]
    exact fun hc => absurd (hc ▸ hlt) (lt_irrefl r)
  refine ⟨getConfigCopy_read_fresh hr, hne, fun w => ?_⟩
  have hread : ((getConfigCopy h r).1.write (getConfigCopy h r).2 w).read r =
      some v := by
    rw [ObjHeap.read_write_ne _ w (fun hc => hne hc.symm)]
    rw [getConfigCopy_fst hr]
    rw [ObjHeap.read_alloc_old _ _ (Nat.ne_of_lt hlt)]
    exact hr
  exact ⟨hread, getConfigCopy_read_fresh hread⟩

/-- Inversion of the backend constructor: a successfully constructed
client stores the supplied configuration and carries exactly the
`Content-Type` and secret-key default headers. -/
theorem JunctureBackend.create_ok {options : JunctureBackendOptions}
    {b : JunctureBackend} (h : JunctureBackend.create options = .ok b) :
    b.config = options.config ∧
    b.httpClient =
      { baseURL := options.config.junctureApiUrl,
        headers := [("Content-Type", some "application/json"),
                    ("X-Juncture-Secret-Key", options.config.junctureSecretKey)] } := by
  simp only [JunctureBackend.create] at h
  split at h
  · exact absurd h (by simp)
  · split at h
    · exact absurd h (by simp)
    · cases h
      exact ⟨rfl, rfl⟩

/-- The generic branch of `getAccessToken`'s catch block: any failure
that is not a 403 flagged for reauthorization goes through the shared
error normalizer with the method default message. -/
theorem getAccessToken_onError_generic (e : CallFailure)
    (hcond : ∀ (resp : AxiosErrResponse) (msg : Option String),
      e = CallFailure.axiosError (some resp) msg →
      resp.status ≠ 403 ∨ jsTruthy resp.data.needs_reauthorization = false) :
    JunctureBackend.getAccessToken_onError e =
      handleError e "Failed to get access token" := by
  cases e with
  | axiosError response msg =>
    cases response with
    | none => rfl
    | some resp =>
      rcases hcond resp msg rfl with hst | htr
      · simp only [JunctureBackend.getAccessToken_onError]
        rw [if_neg hst]
      · simp only [JunctureBackend.getAccessToken_onError]
        by_cases hst : resp.status = 403
        · rw [if_pos hst, if_neg (by rw [htr]; exact Bool.false_ne_true)]
        · rw [if_neg hst]
  | otherError msg => rfl

/-- The reauthorization branch of `getAccessToken`'s catch block. -/
theorem getAccessToken_onError_reauth (resp : AxiosErrResponse)
    (msg : Option String) (hst : resp.status = 403)
    (htr : jsTruthy resp.data.needs_reauthorization = true) :
    JunctureBackend.getAccessToken_onError (.axiosError (some resp) msg) =
      "Reauthorization required: " ++ jsInterp resp.data.error := by
  simp only [JunctureBackend.getAccessToken_onError]
  rw [if_pos hst, if_pos htr]

-- ==================== Claim theorems ====================

/-- C1: the code computes every success flag as
`response.data.success || true`, which is constantly `true` in JavaScript,
so a remote payload carrying an explicit `success: false` still yields
`success = true` from `selectProject`, `editIssue`, `deleteIssue` and
`createTicket` — contradicting the claim that the returned flag equals the
remote-supplied value when present.  The claim's positive `createTicket`
example (`success: true, ticket_key: "PROJ-42"`) does hold, and the flag is
`true` for every payload whatsoever. -/
theorem claim1_success_false_payload_yields_true :
    JunctureBackend.selectJiraProject_onResponse { success := some false } =
      { success := true } ∧
    JunctureBackend.editJiraIssue_onResponse { success := some false } =
      { success := true } ∧
    JunctureBackend.deleteJiraIssue_onResponse { success := some false } =
      { success := true } ∧
    JunctureBackend.createJiraTicket_onResponse
      { success := some false, ticket_key := none, ticket_id := none } =
      { success := true, ticketKey := none, ticketId := none } ∧
    JunctureBackend.createJiraTicket_onResponse
      { success := some true, ticket_key := some "PROJ-42", ticket_id := none } =
      { success := true, ticketKey := some "PROJ-42", ticketId := none } ∧
    ∀ d : SelectJiraProjectData,
      (JunctureBackend.selectJiraProject_onResponse d).success = true := by
  refine ⟨rfl, rfl, rfl, rfl, rfl, fun d => ?_⟩
  rcases d with ⟨s⟩
  cases s with
  | none => rfl
  | some b => cases b <;> rfl

/-- C2, counterexample: `getOAuthAuthorizationUrl` returns `response.data`
verbatim, so a wire payload carrying only the snake_case field
`authorization_uri` yields a record whose `authorizationUri` is absent
rather than the remote-issued URI. -/
theorem claim2_counterexample :
    (JunctureFrontend.getOAuthAuthorizationUrl_onResponse
      { authorization_uri := some "https://auth.example.com/authorize",
        authorizationUri := none }).authorizationUri = none ∧
    (none : Option String) ≠ some "https://auth.example.com/authorize" := by
  exact ⟨rfl, by simp⟩

/-- C2, amended: `getOAuthAuthorizationUrl` performs no field renaming at
all — on success it returns the remote payload verbatim, so the returned
record's `authorizationUri` equals the wire payload's own `authorizationUri`
field (and a payload that only carries snake_case `authorization_uri`
leaves `authorizationUri` undefined). -/
theorem claim2_passthrough (f : JunctureFrontend)
    (request : InitiateOAuthFlowRequest) (d : InitiateOAuthFlowData) :
    (f.getOAuthAuthorizationUrl_run request (.ok d)).2 = .ok d ∧
    JunctureFrontend.getOAuthAuthorizationUrl_onResponse d = d ∧
    (JunctureFrontend.getOAuthAuthorizationUrl_onResponse d).authorizationUri =
      d.authorizationUri ∧
    (JunctureFrontend.getOAuthAuthorizationUrl_onResponse d).authorization_uri =
      d.authorization_uri :=
  ⟨rfl, rfl, rfl, rfl⟩

/-- C3: `getAccessToken` fails with exactly
`"Reauthorization required: " ++ remote error` precisely when the failure
is an axios error whose response has status 403 and whose payload marks
`needs_reauthorization` as truthy; every other failure goes through the
generic normalizer with the method default message. -/
theorem claim3_getAccessToken_reauthorization :
    (∀ (resp : AxiosErrResponse) (msg : Option String),
       resp.status = 403 → jsTruthy resp.data.needs_reauthorization = true →
       JunctureBackend.getAccessToken_onError (.axiosError (some resp) msg) =
         "Reauthorization required: " ++ jsInterp resp.data.error) ∧
    (∀ e : CallFailure,
       (∀ (resp : AxiosErrResponse) (msg : Option String),
          e = CallFailure.axiosError (some resp) msg →
          resp.status ≠ 403 ∨ jsTruthy resp.data.needs_reauthorization = false) →
       JunctureBackend.getAccessToken_onError e =
         handleError e "Failed to get access token") :=
  ⟨fun resp msg hst htr => getAccessToken_onError_reauth resp msg hst htr,
   fun e hcond => getAccessToken_onError_generic e hcond⟩

/-- C3, witness: the simulated 403 with
`needs_reauthorization: true, error: "Token expired"` produces the exact
message `"Reauthorization required: Token expired"`. -/
theorem claim3_witness :
    JunctureBackend.getAccessToken_onError
      (.axiosError
        (some { status := 403,
                data := { error := some "Token expired", details := none,
                          needs_reauthorization := some true } })
        (some "Request failed with status code 403")) =
      "Reauthorization required: Token expired" := by
  have h := claim3_getAccessToken_reauthorization.1
    { status := 403,
      data := { error := some "Token expired", details := none,
                needs_reauthorization := some true } }
    (some "Request failed with status code 403") rfl rfl
  exact h.trans (by decide)

/-- C4: constructing either client with a missing (or empty, hence falsy)
base API URL fails with the configuration error
`"junctureApiUrl is required"`; constructing the backend client without a
secret key fails with `"junctureSecretKey is required"`; and the frontend
client constructs successfully whenever the base URL is present — with or
without a public key, which is never required. -/
theorem claim4_constructor_validation :
    (∀ cfg : JunctureBackendConfig, jsFalsyStr cfg.junctureApiUrl = true →
       JunctureBackend.create { config := cfg } =
         .error "junctureApiUrl is required") ∧
    (∀ cfg : JunctureBackendConfig, jsFalsyStr cfg.junctureApiUrl = false →
       jsFalsyStr cfg.junctureSecretKey = true →
       JunctureBackend.create { config := cfg } =
         .error "junctureSecretKey is required") ∧
    (∀ cfg : JunctureFrontendConfig, jsFalsyStr cfg.junctureApiUrl = true →
       JunctureFrontend.create { config := cfg } =
         .error "junctureApiUrl is required") ∧
    (∀ cfg : JunctureFrontendConfig, jsFalsyStr cfg.junctureApiUrl = false →
       ∃ f : JunctureFrontend,
         JunctureFrontend.create { config := cfg } = .ok f) := by
  refine ⟨fun cfg h => ?_, fun cfg h1 h2 => ?_, fun cfg h => ?_, fun cfg h => ?_⟩
  · simp [JunctureBackend.create, h]
  · simp [JunctureBackend.create, h1, h2]
  · simp [JunctureFrontend.create, h]
  · refine ⟨{ config := cfg,
              httpClient :=
                { baseURL := cfg.junctureApiUrl,
                  headers := [("Content-Type", some "application/json")] ++
                    (if strTruthy cfg.juncturePublicKey then
                      [("X-Juncture-Public-Key", cfg.juncturePublicKey)]
                     else []) } }, ?_⟩
    simp [JunctureFrontend.create, h]

/-- C4, witness: concrete constructions — no URL rejects, no secret key
rejects, and a frontend configured with only a base URL succeeds. -/
theorem claim4_witness :
    JunctureBackend.create
      { config := { junctureApiUrl := none, junctureSecretKey := some "sk" } } =
      .error "junctureApiUrl is required" ∧
    JunctureBackend.create
      { config := { junctureApiUrl := some "https://api.example.com",
                    junctureSecretKey := none } } =
      .error "junctureSecretKey is required" ∧
    JunctureFrontend.create
      { config := { junctureApiUrl := none, juncturePublicKey := some "pk" } } =
      .error "junctureApiUrl is required" ∧
    ∃ f : JunctureFrontend,
      JunctureFrontend.create
        { config := { junctureApiUrl := some "https://api.example.com",
                      juncturePublicKey := none } } = .ok f :=
  ⟨claim4_constructor_validation.1 _ rfl,
   claim4_constructor_validation.2.1 _ (by decide) rfl,
   claim4_constructor_validation.2.2.1 _ rfl,
   claim4_constructor_validation.2.2.2 _ (by decide)⟩

/-- C5: for every list-returning operation, an omitted item-sequence field
yields the empty sequence, and for every paginated one an omitted `total`,
`startAt` or `maxResults` yields 0, 0 and 50 respectively. -/
theorem claim5_list_defaults :
    (∀ d : GetJiraProjectsData, d.projects = none →
       JunctureBackend.getJiraProjects_onResponse d = { projects := [] }) ∧
    (∀ d : GetJiraTicketsData,
       (d.tickets = none →
         (JunctureBackend.getJiraTickets_onResponse d).tickets = []) ∧
       (d.total = none →
         (JunctureBackend.getJiraTickets_onResponse d).total = 0) ∧
       (d.startAt = none →
         (JunctureBackend.getJiraTickets_onResponse d).startAt = 0) ∧
       (d.maxResults = none →
         (JunctureBackend.getJiraTickets_onResponse d).maxResults = 50)) ∧
    (∀ d : GetJiraTicketsData,
       (d.tickets = none →
         (JunctureBackend.getJiraTicketsForSprint_onResponse d).tickets = []) ∧
       (d.total = none →
         (JunctureBackend.getJiraTicketsForSprint_onResponse d).total = 0) ∧
       (d.startAt = none →
         (JunctureBackend.getJiraTicketsForSprint_onResponse d).startAt = 0) ∧
       (d.maxResults = none →
         (JunctureBackend.getJiraTicketsForSprint_onResponse d).maxResults = 50)) ∧
    (∀ d : GetSprintsData,
       (d.sprints = none →
         (JunctureBackend.getJiraSprints_onResponse d).sprints = []) ∧
       (d.total = none →
         (JunctureBackend.getJiraSprints_onResponse d).total = 0) ∧
       (d.startAt = none →
         (JunctureBackend.getJiraSprints_onResponse d).startAt = 0) ∧
       (d.maxResults = none →
         (JunctureBackend.getJiraSprints_onResponse d).maxResults = 50)) ∧
    (∀ d : GetActiveSprintsData, d.sprints = none →
       JunctureBackend.getActiveJiraSprints_onResponse d = { sprints := [] }) ∧
    (∀ d : GetJiraBoardsData,
       (d.boards = none →
         (JunctureBackend.getJiraBoards_onResponse d).boards = []) ∧
       (d.total = none →
         (JunctureBackend.getJiraBoards_onResponse d).total = 0) ∧
       (d.startAt = none →
         (JunctureBackend.getJiraBoards_onResponse d).startAt = 0) ∧
       (d.maxResults = none →
         (JunctureBackend.getJiraBoards_onResponse d).maxResults = 50)) := by
  refine ⟨fun d h => ?_, fun d => ⟨fun h => ?_, fun h => ?_, fun h => ?_, fun h => ?_⟩,
          fun d => ⟨fun h => ?_, fun h => ?_, fun h => ?_, fun h => ?_⟩,
          fun d => ⟨fun h => ?_, fun h => ?_, fun h => ?_, fun h => ?_⟩,
          fun d h => ?_,
          fun d => ⟨fun h => ?_, fun h => ?_, fun h => ?_, fun h => ?_⟩⟩ <;>
    simp [JunctureBackend.getJiraProjects_onResponse,
          JunctureBackend.getJiraTickets_onResponse,
          JunctureBackend.getJiraTicketsForSprint_onResponse,
          JunctureBackend.getJiraSprints_onResponse,
          JunctureBackend.getActiveJiraSprints_onResponse,
          JunctureBackend.getJiraBoards_onResponse,
          jsOrList, jsOrInt, h]

/-- C5, witness: the all-omitted payload yields the documented defaults
for a representative paginated operation and a representative plain-list
operation. -/
theorem claim5_witness :
    (JunctureBackend.getJiraTickets_onResponse
      { tickets := none, total := none, startAt := none, maxResults := none }).tickets
      = [] ∧
    (JunctureBackend.getJiraTickets_onResponse
      { tickets := none, total := none, startAt := none, maxResults := none }).total
      = 0 ∧
    (JunctureBackend.getJiraTickets_onResponse
      { tickets := none, total := none, startAt := none, maxResults := none }).startAt
      = 0 ∧
    (JunctureBackend.getJiraTickets_onResponse
      { tickets := none, total := none, startAt := none, maxResults := none }).maxResults
      = 50 ∧
    JunctureBackend.getJiraProjects_onResponse { projects := none } =
      { projects := [] } := by
  have h := claim5_list_defaults
  exact ⟨(h.2.1 _).1 rfl, (h.2.1 _).2.1 rfl, (h.2.1 _).2.2.1 rfl,
         (h.2.1 _).2.2.2 rfl, h.1 _ rfl⟩

/-- C6: for either client, `getConfig()` — modelled on the object heap as
reading the stored configuration object and allocating a spread copy —
returns a value structurally equal to the configuration supplied at
construction, at a reference distinct from the stored one; overwriting the
returned object changes neither the stored configuration nor what a
subsequent `getConfig()` returns. -/
theorem claim6_getConfig_defensive_copy :
    (∀ (h : ObjHeap JunctureBackendConfig) (r : Nat)
       (cfg : JunctureBackendConfig), h.WF → h.read r = some cfg →
       (getConfigCopy h r).1.read (getConfigCopy h r).2 = some cfg ∧
       (getConfigCopy h r).2 ≠ r ∧
       ∀ w : JunctureBackendConfig,
         ((getConfigCopy h r).1.write (getConfigCopy h r).2 w).read r = some cfg ∧
         (getConfigCopy ((getConfigCopy h r).1.write (getConfigCopy h r).2 w) r).1.read
           (getConfigCopy ((getConfigCopy h r).1.write (getConfigCopy h r).2 w) r).2 =
           some cfg) ∧
    (∀ (h : ObjHeap JunctureFrontendConfig) (r : Nat)
       (cfg : JunctureFrontendConfig), h.WF → h.read r = some cfg →
       (getConfigCopy h r).1.read (getConfigCopy h r).2 = some cfg ∧
       (getConfigCopy h r).2 ≠ r ∧
       ∀ w : JunctureFrontendConfig,
         ((getConfigCopy h r).1.write (getConfigCopy h r).2 w).read r = some cfg ∧
         (getConfigCopy ((getConfigCopy h r).1.write (getConfigCopy h r).2 w) r).1.read
           (getConfigCopy ((getConfigCopy h r).1.write (getConfigCopy h r).2 w) r).2 =
           some cfg) :=
  ⟨fun h r cfg hwf hr => spreadCopy_defensive h r cfg hwf hr,
   fun h r cfg hwf hr => spreadCopy_defensive h r cfg hwf hr⟩

/-- C6, witness: a concrete one-object heap holding the backend
configuration; the copy reads back the supplied configuration, and
overwriting the copy with different field values leaves the stored
configuration intact. -/
theorem claim6_witness :
    (getConfigCopy
        (⟨[(0, ⟨some "https://api.example.com", some "sk"⟩)], 1⟩ :
          ObjHeap JunctureBackendConfig) 0).1.read
      (getConfigCopy
        (⟨[(0, ⟨some "https://api.example.com", some "sk"⟩)], 1⟩ :
          ObjHeap JunctureBackendConfig) 0).2 =
      some ⟨some "https://api.example.com", some "sk"⟩ ∧
    ((getConfigCopy
        (⟨[(0, ⟨some "https://api.example.com", some "sk"⟩)], 1⟩ :
          ObjHeap JunctureBackendConfig) 0).1.write
      (getConfigCopy
        (⟨[(0, ⟨some "https://api.example.com", some "sk"⟩)], 1⟩ :
          ObjHeap JunctureBackendConfig) 0).2
      ⟨some "https://evil.example.com", some "stolen"⟩).read 0 =
      some ⟨some "https://api.example.com", some "sk"⟩ := by
  have hwf : (⟨[(0, ⟨some "https://api.example.com", some "sk"⟩)], 1⟩ :
      ObjHeap JunctureBackendConfig).WF := by
    intro p hp
    rw [List.mem_singleton] at hp
    subst hp
    decide
  have h := claim6_getConfig_defensive_copy.1
    ⟨[(0, ⟨some "https://api.example.com", some "sk"⟩)], 1⟩ 0
    ⟨some "https://api.example.com", some "sk"⟩ hwf rfl
  exact ⟨h.1, (h.2.2 ⟨some "https://evil.example.com", some "stolen"⟩).1⟩

/-- C7: `reauthorizeConnection` and `completeIntegration` are literal
aliases of `redirectToOAuth` applied to the record of their two arguments:
for every provider, external id, framework, window availability and
transport outcome, all three issue the same request and produce the same
result or error. -/
theorem claim7_redirect_aliases (f : JunctureFrontend)
    (provider : ProviderType) (externalId : String)
    (framework : SupportedFramework) (windowAvailable : Bool)
    (outcome : Except CallFailure InitiateOAuthFlowData) :
    f.reauthorizeConnection_run provider externalId framework windowAvailable
        outcome =
      f.redirectToOAuth_run { provider := provider, externalId := externalId }
        framework windowAvailable outcome ∧
    f.completeIntegration_run provider externalId framework windowAvailable
        outcome =
      f.redirectToOAuth_run { provider := provider, externalId := externalId }
        framework windowAvailable outcome ∧
    f.reauthorizeConnection_run provider externalId framework windowAvailable
        outcome =
      f.completeIntegration_run provider externalId framework windowAvailable
        outcome :=
  ⟨rfl, rfl, rfl⟩

/-- C8, counterexample: when the remote payload supplies BOTH an error
string and details, `handleError` appends the details to the remote error
string (`"remote failure: database timeout"`), whereas the claimed
precedence makes the message the remote error string alone. -/
theorem claim8_counterexample :
    handleError
      (.axiosError
        (some { status := 500,
                data := { error := some "remote failure",
                          details := some "database timeout",
                          needs_reauthorization := none } })
        (some "Request failed with status code 500"))
      "Failed to get Jira tickets" = "remote failure: database timeout" ∧
    "remote failure: database timeout" ≠ "remote failure" := by
  exact ⟨rfl, by decide⟩

/-- C8, amended: the base message follows the precedence (remote error
string if truthy, else the transport's own message if truthy, else the
method default), and whenever remote details are truthy they are appended
as `": " ++ details` to that base — they are not merely a fallback; and
every operation run on a failed outcome yields exactly the one normalized
error, with no partial result. -/
theorem claim8_message_precedence :
    (∀ (resp : AxiosErrResponse) (msg : Option String) (d : String),
       (strTruthy resp.data.error = true → strTruthy resp.data.details = true →
         handleError (.axiosError (some resp) msg) d =
           jsInterp resp.data.error ++ ": " ++ jsInterp resp.data.details) ∧
       (strTruthy resp.data.error = true → strTruthy resp.data.details = false →
         handleError (.axiosError (some resp) msg) d =
           jsInterp resp.data.error) ∧
       (strTruthy resp.data.error = false → strTruthy msg = true →
         strTruthy resp.data.details = true →
         handleError (.axiosError (some resp) msg) d =
           jsInterp msg ++ ": " ++ jsInterp resp.data.details) ∧
       (strTruthy resp.data.error = false → strTruthy msg = true →
         strTruthy resp.data.details = false →
         handleError (.axiosError (some resp) msg) d = jsInterp msg) ∧
       (strTruthy resp.data.error = false → strTruthy msg = false →
         strTruthy resp.data.details = true →
         handleError (.axiosError (some resp) msg) d =
           d ++ ": " ++ jsInterp resp.data.details) ∧
       (strTruthy resp.data.error = false → strTruthy msg = false →
         strTruthy resp.data.details = false →
         handleError (.axiosError (some resp) msg) d = d)) ∧
    (∀ (msg : Option String) (d : String),
       (strTruthy msg = true → handleError (.axiosError none msg) d = jsInterp msg) ∧
       (strTruthy msg = false → handleError (.axiosError none msg) d = d) ∧
       (strTruthy msg = true → handleError (.otherError msg) d = jsInterp msg) ∧
       (strTruthy msg = false → handleError (.otherError msg) d = d)) ∧
    (∀ (b : JunctureBackend) (e : CallFailure),
       (∀ r, (b.checkConnectionValidity_run r (.error e)).2 =
          .error (handleError e "Failed to check connection validity")) ∧
       (∀ r, (b.getConnectionCredentials_run r (.error e)).2 =
          .error (handleError e "Failed to get connection credentials")) ∧
       (∀ r, (∀ (resp : AxiosErrResponse) (msg : Option String),
            e = CallFailure.axiosError (some resp) msg →
            resp.status ≠ 403 ∨ jsTruthy resp.data.needs_reauthorization = false) →
          (b.getAccessToken_run r (.error e)).2 =
            .error (handleError e "Failed to get access token")) ∧
       ((b.getJiraProjects_run (.error e)).2 =
          .error (handleError e "Failed to get Jira projects")) ∧
       (∀ r, (b.selectJiraProject_run r (.error e)).2 =
          .error (handleError e "Failed to select Jira project")) ∧
       ((b.getSelectedJiraProjectId_run (.error e)).2 =
          .error (handleError e "Failed to get selected Jira project ID")) ∧
       (∀ r, (b.getJiraTickets_run r (.error e)).2 =
          .error (handleError e "Failed to get Jira tickets")) ∧
       (∀ r, (b.getJiraTicketsForSprint_run r (.error e)).2 =
          .error (handleError e "Failed to get Jira tickets for sprint")) ∧
       (∀ r, (b.getJiraIssue_run r (.error e)).2 =
          .error (handleError e "Failed to get Jira issue")) ∧
       (∀ r, (b.createJiraTicket_run r (.error e)).2 =
          .error (handleError e "Failed to create Jira ticket")) ∧
       (∀ r, (b.editJiraIssue_run r (.error e)).2 =
          .error (handleError e "Failed to edit Jira issue")) ∧
       (∀ r, (b.deleteJiraIssue_run r (.error e)).2 =
          .error (handleError e "Failed to delete Jira issue")) ∧
       (∀ r, (b.getJiraSprints_run r (.error e)).2 =
          .error (handleError e "Failed to get Jira sprints")) ∧
       ((b.getActiveJiraSprints_run (.error e)).2 =
          .error (handleError e "Failed to get active Jira sprints")) ∧
       (∀ r, (b.getJiraBoards_run r (.error e)).2 =
          .error (handleError e "Failed to get Jira boards"))) ∧
    (∀ (f : JunctureFrontend) (r : InitiateOAuthFlowRequest) (e : CallFailure),
       (f.getOAuthAuthorizationUrl_run r (.error e)).2 =
         .error (handleError e "Failed to get OAuth authorization URL")) := by
  refine ⟨fun resp msg d =>
      ⟨fun h1 h2 => ?_, fun h1 h2 => ?_, fun h1 h2 h3 => ?_,
       fun h1 h2 h3 => ?_, fun h1 h2 h3 => ?_, fun h1 h2 h3 => ?_⟩,
    fun msg d => ⟨fun h1 => ?_, fun h1 => ?_, fun h1 => ?_, fun h1 => ?_⟩,
    fun b e => ⟨fun r => rfl, fun r => rfl, fun r hcond => ?_, rfl, fun r => rfl,
       rfl, fun r => rfl, fun r => rfl, fun r => rfl, fun r => rfl, fun r => rfl,
       fun r => rfl, fun r => rfl, rfl, fun r => rfl⟩,
    fun f r e => rfl⟩
  · simp [handleError, jsSel, h1, h2]
  · simp [handleError, jsSel, h1, h2]
  · simp [handleError, jsSel, h1, h2, h3]
  · simp [handleError, jsSel, h1, h2, h3]
  · simp [handleError, jsSel, jsInterp, h1, h2, h3]
  · simp [handleError, jsSel, jsInterp, h1, h2, h3]
  · have hN : strTruthy (none : Option String) = false := rfl
    simp [handleError, jsSel, hN, h1]
  · have hN : strTruthy (none : Option String) = false := rfl
    simp [handleError, jsSel, jsInterp, hN, h1]
  · have hN : strTruthy (none : Option String) = false := rfl
    simp [handleError, jsSel, hN, h1]
  · have hN : strTruthy (none : Option String) = false := rfl
    simp [handleError, jsSel, jsInterp, hN, h1]
  · show Except.error (JunctureBackend.getAccessToken_onError e) = _
    rw [getAccessToken_onError_generic e hcond]

/-- C8, witness: applying the precedence characterization at concrete
inputs — a payload with both error and details yields the appended form,
and a payload with neither yields the transport message. -/
theorem claim8_witness :
    handleError
      (.axiosError
        (some { status := 500,
                data := { error := some "boom", details := some "ctx",
                          needs_reauthorization := none } })
        (some "transport said no"))
      "Failed to edit Jira issue" = "boom: ctx" ∧
    handleError
      (.axiosError
        (some { status := 500,
                data := { error := none, details := none,
                          needs_reauthorization := none } })
        (some "transport said no"))
      "Failed to edit Jira issue" = "transport said no" := by
  constructor
  · have h := (claim8_message_precedence.1
      { status := 500,
        data := { error := some "boom", details := some "ctx",
                  needs_reauthorization := none } }
      (some "transport said no") "Failed to edit Jira issue").1 rfl rfl
    exact h.trans (by decide)
  · have h := (claim8_message_precedence.1
      { status := 500,
        data := { error := none, details := none,
                  needs_reauthorization := none } }
      (some "transport said no") "Failed to edit Jira issue").2.2.2.1
      rfl rfl rfl
    exact h.trans (by decide)

/-- C9, counterexample: `getConfig` is a method of the Secret Client and
its return value contains the configured secret key verbatim — the key is
echoed back to the caller. -/
theorem claim9_counterexample :
    (JunctureBackend.create
      { config := { junctureApiUrl := some "https://api.example.com",
                    junctureSecretKey := some "sk" } }).map
      (fun b => (JunctureBackend.getConfig b).junctureSecretKey) =
      .ok (some "sk") := rfl

/-- C9, amended: every outbound request of every Secret Client operation
carries the configured secret key under the `X-Juncture-Secret-Key`
header, and no remote operation's result depends on the secret key (two
clients differing only in configuration produce identical results for the
same transport outcome) — but the local accessor `getConfig` does return
the configuration, secret key included. -/
theorem claim9_secret_key_header :
    (∀ (options : JunctureBackendOptions) (b : JunctureBackend),
       JunctureBackend.create options = .ok b →
       (∀ r : CheckConnectionValidityRequest,
          ("X-Juncture-Secret-Key", b.config.junctureSecretKey) ∈
            (b.checkConnectionValidity_request r).headers) ∧
       (∀ r : GetConnectionCredentialsRequest,
          ("X-Juncture-Secret-Key", b.config.junctureSecretKey) ∈
            (b.getConnectionCredentials_request r).headers) ∧
       (∀ r : GetAccessTokenRequest,
          ("X-Juncture-Secret-Key", b.config.junctureSecretKey) ∈
            (b.getAccessToken_request r).headers) ∧
       (("X-Juncture-Secret-Key", b.config.junctureSecretKey) ∈
          b.getJiraProjects_request.headers) ∧
       (∀ r : SelectJiraProjectRequest,
          ("X-Juncture-Secret-Key", b.config.junctureSecretKey) ∈
            (b.selectJiraProject_request r).headers) ∧
       (("X-Juncture-Secret-Key", b.config.junctureSecretKey) ∈
          b.getSelectedJiraProjectId_request.headers) ∧
       (∀ r : Option GetJiraTicketsRequest,
          ("X-Juncture-Secret-Key", b.config.junctureSecretKey) ∈
            (b.getJiraTickets_request r).headers) ∧
       (∀ r : GetJiraTicketsForSprintRequest,
          ("X-Juncture-Secret-Key", b.config.junctureSecretKey) ∈
            (b.getJiraTicketsForSprint_request r).headers) ∧
       (∀ r : GetJiraIssueRequest,
          ("X-Juncture-Secret-Key", b.config.junctureSecretKey) ∈
            (b.getJiraIssue_request r).headers) ∧
       (∀ r : CreateJiraTicketRequest,
          ("X-Juncture-Secret-Key", b.config.junctureSecretKey) ∈
            (b.createJiraTicket_request r).headers) ∧
       (∀ r : EditJiraIssueRequest,
          ("X-Juncture-Secret-Key", b.config.junctureSecretKey) ∈
            (b.editJiraIssue_request r).headers) ∧
       (∀ r : DeleteJiraIssueRequest,
          ("X-Juncture-Secret-Key", b.config.junctureSecretKey) ∈
            (b.deleteJiraIssue_request r).headers) ∧
       (∀ r : Option GetSprintsRequest,
          ("X-Juncture-Secret-Key", b.config.junctureSecretKey) ∈
            (b.getJiraSprints_request r).headers) ∧
       (("X-Juncture-Secret-Key", b.config.junctureSecretKey) ∈
          b.getActiveJiraSprints_request.headers) ∧
       (∀ r : Option GetJiraBoardRequest,
          ("X-Juncture-Secret-Key", b.config.junctureSecretKey) ∈
            (b.getJiraBoards_request r).headers)) ∧
    (∀ (b1 b2 : JunctureBackend),
       (∀ r o, (b1.checkConnectionValidity_run r o).2 =
          (b2.checkConnectionValidity_run r o).2) ∧
       (∀ r o, (b1.getConnectionCredentials_run r o).2 =
          (b2.getConnectionCredentials_run r o).2) ∧
       (∀ r o, (b1.getAccessToken_run r o).2 = (b2.getAccessToken_run r o).2) ∧
       (∀ o, (b1.getJiraProjects_run o).2 = (b2.getJiraProjects_run o).2) ∧
       (∀ r o, (b1.selectJiraProject_run r o).2 =
          (b2.selectJiraProject_run r o).2) ∧
       (∀ o, (b1.getSelectedJiraProjectId_run o).2 =
          (b2.getSelectedJiraProjectId_run o).2) ∧
       (∀ r o, (b1.getJiraTickets_run r o).2 = (b2.getJiraTickets_run r o).2) ∧
       (∀ r o, (b1.getJiraTicketsForSprint_run r o).2 =
          (b2.getJiraTicketsForSprint_run r o).2) ∧
       (∀ r o, (b1.getJiraIssue_run r o).2 = (b2.getJiraIssue_run r o).2) ∧
       (∀ r o, (b1.createJiraTicket_run r o).2 =
          (b2.createJiraTicket_run r o).2) ∧
       (∀ r o, (b1.editJiraIssue_run r o).2 = (b2.editJiraIssue_run r o).2) ∧
       (∀ r o, (b1.deleteJiraIssue_run r o).2 =
          (b2.deleteJiraIssue_run r o).2) ∧
       (∀ r o, (b1.getJiraSprints_run r o).2 = (b2.getJiraSprints_run r o).2) ∧
       (∀ o, (b1.getActiveJiraSprints_run o).2 =
          (b2.getActiveJiraSprints_run o).2) ∧
       (∀ r o, (b1.getJiraBoards_run r o).2 = (b2.getJiraBoards_run r o).2)) := by
  constructor
  · intro options b h
    obtain ⟨hcfg, hhttp⟩ := JunctureBackend.create_ok h
    refine ⟨fun r => ?_, fun r => ?_, fun r => ?_, ?_, fun r => ?_, ?_,
            fun r => ?_, fun r => ?_, fun r => ?_, fun r => ?_, fun r => ?_,
            fun r => ?_, fun r => ?_, ?_, fun r => ?_⟩ <;>
      simp [JunctureBackend.checkConnectionValidity_request,
            JunctureBackend.getConnectionCredentials_request,
            JunctureBackend.getAccessToken_request,
            JunctureBackend.getJiraProjects_request,
            JunctureBackend.selectJiraProject_request,
            JunctureBackend.getSelectedJiraProjectId_request,
            JunctureBackend.getJiraTickets_request,
            JunctureBackend.getJiraTicketsForSprint_request,
            JunctureBackend.getJiraIssue_request,
            JunctureBackend.createJiraTicket_request,
            JunctureBackend.editJiraIssue_request,
            JunctureBackend.deleteJiraIssue_request,
            JunctureBackend.getJiraSprints_request,
            JunctureBackend.getActiveJiraSprints_request,
            JunctureBackend.getJiraBoards_request,
            HttpClient.getReq, HttpClient.postReq, HttpClient.putReq,
            HttpClient.deleteReq, hhttp, hcfg]
  · intro b1 b2
    exact ⟨fun r o => rfl, fun r o => rfl, fun r o => rfl, fun o => rfl,
           fun r o => rfl, fun o => rfl, fun r o => rfl, fun r o => rfl,
           fun r o => rfl, fun r o => rfl, fun r o => rfl, fun r o => rfl,
           fun r o => rfl, fun o => rfl, fun r o => rfl⟩

/-- C9, witness: a concretely constructed client attaches
`("X-Juncture-Secret-Key", some "sk")` on a `selectProject` request. -/
theorem claim9_witness :
    ("X-Juncture-Secret-Key", some "sk") ∈
      (JunctureBackend.selectJiraProject_request
        { config := { junctureApiUrl := some "https://api.example.com",
                      junctureSecretKey := some "sk" },
          httpClient :=
            { baseURL := some "https://api.example.com",
              headers := [("Content-Type", some "application/json"),
                          ("X-Juncture-Secret-Key", some "sk")] } }
        { projectId := "10" }).headers := by
  have h := (claim9_secret_key_header.1
    { config := { junctureApiUrl := some "https://api.example.com",
                  junctureSecretKey := some "sk" } }
    { config := { junctureApiUrl := some "https://api.example.com",
                  junctureSecretKey := some "sk" },
      httpClient :=
        { baseURL := some "https://api.example.com",
          headers := [("Content-Type", some "application/json"),
                      ("X-Juncture-Secret-Key", some "sk")] } }
    rfl).2.2.2.2.1 { projectId := "10" }
  exact h

/-- C10: the `||`-defaulting of the paginated list operations replaces any
falsy remote value, not only omitted fields: an explicit `maxResults: 0`
becomes 50, a null/omitted item field (both modelled as `none`) and an
explicit empty array both yield the empty list, while explicit
`total: 0` and `startAt: 0` are preserved as 0. -/
theorem claim10_falsy_defaults :
    (∀ d : GetJiraTicketsData,
       (d.maxResults = some 0 →
         (JunctureBackend.getJiraTickets_onResponse d).maxResults = 50) ∧
       (d.tickets = none ∨ d.tickets = some [] →
         (JunctureBackend.getJiraTickets_onResponse d).tickets = []) ∧
       (d.total = some 0 →
         (JunctureBackend.getJiraTickets_onResponse d).total = 0) ∧
       (d.startAt = some 0 →
         (JunctureBackend.getJiraTickets_onResponse d).startAt = 0)) ∧
    (∀ d : GetJiraTicketsData,
       (d.maxResults = some 0 →
         (JunctureBackend.getJiraTicketsForSprint_onResponse d).maxResults = 50) ∧
       (d.tickets = none ∨ d.tickets = some [] →
         (JunctureBackend.getJiraTicketsForSprint_onResponse d).tickets = []) ∧
       (d.total = some 0 →
         (JunctureBackend.getJiraTicketsForSprint_onResponse d).total = 0) ∧
       (d.startAt = some 0 →
         (JunctureBackend.getJiraTicketsForSprint_onResponse d).startAt = 0)) ∧
    (∀ d : GetSprintsData,
       (d.maxResults = some 0 →
         (JunctureBackend.getJiraSprints_onResponse d).maxResults = 50) ∧
       (d.sprints = none ∨ d.sprints = some [] →
         (JunctureBackend.getJiraSprints_onResponse d).sprints = []) ∧
       (d.total = some 0 →
         (JunctureBackend.getJiraSprints_onResponse d).total = 0) ∧
       (d.startAt = some 0 →
         (JunctureBackend.getJiraSprints_onResponse d).startAt = 0)) ∧
    (∀ d : GetJiraBoardsData,
       (d.maxResults = some 0 →
         (JunctureBackend.getJiraBoards_onResponse d).maxResults = 50) ∧
       (d.boards = none ∨ d.boards = some [] →
         (JunctureBackend.getJiraBoards_onResponse d).boards = []) ∧
       (d.total = some 0 →
         (JunctureBackend.getJiraBoards_onResponse d).total = 0) ∧
       (d.startAt = some 0 →
         (JunctureBackend.getJiraBoards_onResponse d).startAt = 0)) := by
  refine ⟨fun d => ⟨fun h => ?_, fun h => ?_, fun h => ?_, fun h => ?_⟩,
          fun d => ⟨fun h => ?_, fun h => ?_, fun h => ?_, fun h => ?_⟩,
          fun d => ⟨fun h => ?_, fun h => ?_, fun h => ?_, fun h => ?_⟩,
          fun d => ⟨fun h => ?_, fun h => ?_, fun h => ?_, fun h => ?_⟩⟩ <;>
    first
      | (rcases h with h | h <;>
          simp [JunctureBackend.getJiraTickets_onResponse,
                JunctureBackend.getJiraTicketsForSprint_onResponse,
                JunctureBackend.getJiraSprints_onResponse,
                JunctureBackend.getJiraBoards_onResponse,
                jsOrList, jsOrInt, h])
      | simp [JunctureBackend.getJiraTickets_onResponse,
              JunctureBackend.getJiraTicketsForSprint_onResponse,
              JunctureBackend.getJiraSprints_onResponse,
              JunctureBackend.getJiraBoards_onResponse,
              jsOrList, jsOrInt, h]

/-- C10, witness: the all-falsy-but-present payload — empty item array and
explicit zero counters — yields the empty list, preserved zeros, and
`maxResults = 50`. -/
theorem claim10_witness :
    (JunctureBackend.getJiraTickets_onResponse
      { tickets := some [], total := some 0, startAt := some 0,
        maxResults := some 0 }).maxResults = 50 ∧
    (JunctureBackend.getJiraTickets_onResponse
      { tickets := some [], total := some 0, startAt := some 0,
        maxResults := some 0 }).tickets = [] ∧
    (JunctureBackend.getJiraTickets_onResponse
      { tickets := some [], total := some 0, startAt := some 0,
        maxResults := some 0 }).total = 0 ∧
    (JunctureBackend.getJiraTickets_onResponse
      { tickets := some [], total := some 0, startAt := some 0,
        maxResults := some 0 }).startAt = 0 := by
  have h := claim10_falsy_defaults.1
    { tickets := some [], total := some 0, startAt := some 0,
      maxResults := some 0 }
  exact ⟨h.1 rfl, h.2.1 (Or.inr rfl), h.2.2.1 rfl, h.2.2.2 rfl⟩

end Juncture
